import Mathlib

/-!
Shallow embedding of src/message_queue.hpp, a POSIX message-queue wrapper
(class message_queue::MessageQueue with nested Priority, Message, Builder).

Kernel calls (mq_open, mq_getattr, mq_receive, mq_unlink) are modelled as
oracle parameters; the process-global errno cell is threaded explicitly.
C++ exceptions and std::expected are both modelled with Except / Option.
-/

/-- enum struct MqType: RECEIVER = O_RDONLY (0), SENDER = O_WRONLY,
BIDIRECTIONAL = O_RDWR.  Value-initialization (the braces in the member
initializer of MessageQueue) yields underlying value 0, i.e. RECEIVER. -/
inductive MqType
  | RECEIVER
  | SENDER
  | BIDIRECTIONAL
  deriving DecidableEq, Repr

/-- enum struct MqMode: BLOCKING = 0, NON_BLOCKING = O_NONBLOCK. -/
inductive MqMode
  | BLOCKING
  | NON_BLOCKING
  deriving DecidableEq, Repr

/-- detail::MqError = std::string. -/
abbrev MqError := String

/-- enum struct Operation: Open, Close, Send, Receive, GetAttr, Unlink,
with underlying values 0..5 in declaration order. -/
inductive Operation
  | Open
  | Close
  | Send
  | Receive
  | GetAttr
  | Unlink
  deriving DecidableEq, Repr

/-- std::to_underlying on Operation. -/
def Operation.toUnderlying : Operation → Nat
  | .Open => 0
  | .Close => 1
  | .Send => 2
  | .Receive => 3
  | .GetAttr => 4
  | .Unlink => 5

/-! Linux errno constants appearing in the err_map table. -/

def ENOENT : Nat := 2
def EINTR : Nat := 4
def EBADF : Nat := 9
def EAGAIN : Nat := 11
def ENOMEM : Nat := 12
def EACCES : Nat := 13
def EEXIST : Nat := 17
def EINVAL : Nat := 22
def ENFILE : Nat := 23
def EMFILE : Nat := 24
def ENOSPC : Nat := 28
def ENAMETOOLONG : Nat := 36
def EMSGSIZE : Nat := 90
def ETIMEDOUT : Nat := 110

/-- The static err_map lookup table of MessageQueue::parse_err: per
Operation, per errno value, the fixed explanation string.  A (operation,
code) pair absent from the table is none (std::unordered_map::at throws
std::out_of_range there). -/
def err_map (op : Operation) (e : Nat) : Option String :=
  match op with
  | .Open =>
    if e = EACCES then some "insufficient permission"
    else if e = EEXIST then some "queue with the same name already exist"
    else if e = EMFILE then some "per-process limit on the number of fds is reached"
    else if e = ENFILE then some "system-wide limit on the number of fds is reached"
    else if e = ENOENT then some "queue doesn't exist"
    else if e = ENOMEM then some "insufficient memory"
    else if e = ENOSPC then some "insufficient space"
    else none
  | .Close =>
    if e = EBADF then some "invalid mq fd" else none
  | .Send =>
    if e = EAGAIN then some "queue is full"
    else if e = EBADF then some "invalid mq fd, or the queue is not opened for sending"
    else if e = EINTR then some "interrupted by a single handler"
    else if e = EINVAL then some "TODO: not implemented"
    else if e = EMSGSIZE then some "contained message length greater than max. size"
    else if e = ETIMEDOUT then some "TODO: not implemented"
    else none
  | .Receive =>
    if e = EAGAIN then some "queue is empty"
    else if e = EBADF then some "invalid mq fd, or the queue is not opened for receiving"
    else if e = EINTR then some "interrupted by a single handler"
    else if e = EINVAL then some "TODO: time-based api not implemented"
    else if e = EMSGSIZE then some "given message length less than max. size"
    else if e = ETIMEDOUT then some "TODO: time-based api not implemented"
    else none
  | .GetAttr =>
    if e = EBADF then some "invalid mq fd"
    else if e = EINVAL then some "mq_flags contains more than O_NONBLOCK"
    else none
  | .Unlink =>
    if e = EACCES then some "insufficient permission"
    else if e = ENAMETOOLONG then some "name too long"
    else if e = ENOENT then some "no message queue found under this name"
    else none

/-- The std::format string of parse_err:
"Error: operation {} with errno {}: {}". -/
def mkErrMsg (op : Operation) (err : Nat) (expl : String) : String :=
  "Error: operation " ++ toString op.toUnderlying ++ " with errno " ++
    toString err ++ ": " ++ expl

/-- MessageQueue::parse_err.  Takes the current value of the errno cell;
std::exchange(errno, 0) captures it and resets the cell to 0.  Returns
(message-or-throw, new errno value): some msg when the (op, errno) pair is
in err_map, none when err_map.at throws std::out_of_range. -/
def parse_err (op : Operation) (errnoCell : Nat) : Option MqError × Nat :=
  let err := errnoCell
  match err_map op err with
  | some expl => (some (mkErrMsg op err expl), 0)
  | none => (none, 0)

/-- Priority::DEFAULT = 3. -/
def PRIORITY_DEFAULT : Nat := 3

/-- struct Priority: an unsigned int with default member initializer
priority_{DEFAULT}. -/
structure Priority where
  priority : Nat := PRIORITY_DEFAULT
  deriving DecidableEq, Repr

/-- Priority::priority_sanity_check: throws std::invalid_argument (none)
when priority > 32768 - 1, otherwise returns the value unchanged. -/
def priority_sanity_check (p : Nat) : Option Nat :=
  if p > 32768 - 1 then none else some p

/-- The converting constructor Priority(unsigned int): validates then
stores.  none models the thrown std::invalid_argument. -/
def Priority.ctor (p : Nat) : Option Priority :=
  (priority_sanity_check p).map Priority.mk

/-- operator unsigned int() const. -/
def Priority.toUInt (p : Priority) : Nat := p.priority

/-- Default construction Priority(): all fields take their default member
initializers. -/
def Priority.defaultCtor : Priority := {}

/-- struct mq_attr, the fields the wrapper uses.  mq_maxmsg, mq_msgsize,
mq_curmsgs are long in C but always non-negative kernel counts here. -/
structure MqAttr where
  mq_flags : Int := 0
  mq_maxmsg : Nat := 0
  mq_msgsize : Nat := 0
  mq_curmsgs : Nat := 0
  deriving DecidableEq, Repr

/-- struct Message: an owned byte payload plus the received priority. -/
structure Message where
  contents : List UInt8
  priority : Nat
  deriving DecidableEq, Repr

/-- class MessageQueue's data members with their default member
initializers: mutable mq_attr attr_{}; std::string_view name_{};
MqType type_{}; mqd_t mqdes_{-1}.  A default-constructed value is exactly
the state a fresh object has before the move-constructor body runs. -/
structure MessageQueue where
  attr : MqAttr := {}
  name : List Char := []
  type : MqType := .RECEIVER
  mqdes : Int := -1
  deriving DecidableEq, Repr

/-- Move assignment operator=(MessageQueue&&): swaps attr_, name_, type_,
mqdes_ member-wise between *this (lhs) and rhs.  Result is
(new lhs state, new rhs state). -/
def MessageQueue.moveAssign (lhs rhs : MessageQueue) :
    MessageQueue × MessageQueue :=
  (⟨rhs.attr, rhs.name, rhs.type, rhs.mqdes⟩,
   ⟨lhs.attr, lhs.name, lhs.type, lhs.mqdes⟩)

/-- Move constructor MessageQueue(MessageQueue&&): the fresh object starts
from the default member initializers, then does *this = std::move(rhs).
Result is (the new object, the moved-from rhs state). -/
def MessageQueue.moveConstruct (rhs : MessageQueue) :
    MessageQueue × MessageQueue :=
  MessageQueue.moveAssign {} rhs

/-- The destructor calls mq_close(mqdes_) exactly when mqdes_ != -1. -/
def MessageQueue.destructorCloses (q : MessageQueue) : Bool :=
  q.mqdes != -1

/-- std::string_view::find_first_of for a single character, over the
characters of the name. -/
def find_first_of : List Char → Char → Option Nat
  | [], _ => none
  | a :: rest, c =>
    if a = c then some 0 else (find_first_of rest c).map (· + 1)

/-- std::string_view::find_last_of for a single character. -/
def find_last_of : List Char → Char → Option Nat
  | [], _ => none
  | a :: rest, c =>
    match find_last_of rest c with
    | some i => some (i + 1)
    | none => if a = c then some 0 else none

/-- MessageQueue::name_sanity_check.  nameMax models the runtime value
pathconf("/", _PC_NAME_MAX).  Throws std::invalid_argument (none) when
!starts_with('/') || find_first_of('/') != find_last_of('/') ||
size() == 1 || size() + 1 >= nameMax; otherwise returns the name. -/
def name_sanity_check (name : List Char) (nameMax : Nat) :
    Option (List Char) :=
  if name.head? ≠ some '/' ∨ find_first_of name '/' ≠ find_last_of name '/'
      ∨ name.length = 1 ∨ name.length + 1 ≥ nameMax
  then none
  else some name

/-- The naming rule as the spec words it: starts with one separator,
contains no other separator (so exactly one in total), length at least 2
including the leading separator, and fits the platform name-length limit
(length plus terminator below nameMax). -/
def validName (name : List Char) (nameMax : Nat) : Prop :=
  name.head? = some '/' ∧ name.count '/' = 1 ∧ 2 ≤ name.length ∧
    name.length + 1 < nameMax

instance (name : List Char) (nameMax : Nat) : Decidable (validName name nameMax) :=
  inferInstanceAs (Decidable (name.head? = some '/' ∧ name.count '/' = 1 ∧
    2 ≤ name.length ∧ name.length + 1 < nameMax))

/-- The two failure forms of the MessageQueue constructor: the
std::invalid_argument("invalid mq name") from name_sanity_check, or the
std::invalid_argument(parse_err(Operation::Open)) after mq_open returned
-1 (cause = none models the out_of_range escape inside parse_err). -/
inductive CtorError
  | invalidName
  | openFailed (cause : Option MqError)
  deriving DecidableEq, Repr

/-- The primary constructor MessageQueue(name, mode, type): member
initializers run in declaration order, so name_sanity_check throws before
mq_open is ever reached; then mqdes_ = mq_open(...), and mqdes_ == -1
throws parse_err(Operation::Open).  mq_open and the mq_getattr snapshot
(attrOf, the asserted get_attr() in the body) are kernel oracles. -/
def MessageQueue.construct (name : List Char) (mode : MqMode) (type : MqType)
    (nameMax : Nat) (mq_open : List Char → MqMode → MqType → Int)
    (attrOf : Int → MqAttr) (errnoCell : Nat) :
    Except CtorError MessageQueue :=
  match name_sanity_check name nameMax with
  | none => .error .invalidName
  | some n =>
    let des := mq_open n mode type
    if des = -1 then .error (.openFailed (parse_err .Open errnoCell).1)
    else .ok { attr := attrOf des, name := n, type := type, mqdes := des }

/-- MessageQueue::get_attr: mq_getattr refreshes the mutable attr_ cache;
on kernel failure returns unexpected{parse_err(Operation::GetAttr)}.  The
kernel's answer is the oracle kernelAttr (none = mq_getattr failed). -/
def MessageQueue.get_attr (q : MessageQueue) (kernelAttr : Option MqAttr)
    (errnoCell : Nat) : Except (Option MqError) MessageQueue :=
  match kernelAttr with
  | some a => .ok { q with attr := a }
  | none => .error (parse_err .GetAttr errnoCell).1

/-- MessageQueue::size: get_attr() then attr_.mq_curmsgs, with .value()
(crash on error, modelled as none).  Returns the count together with the
handle whose attr_ cache was refreshed. -/
def MessageQueue.size (q : MessageQueue) (kernelAttr : Option MqAttr)
    (errnoCell : Nat) : Option (Nat × MessageQueue) :=
  match q.get_attr kernelAttr errnoCell with
  | .ok q2 => some (q2.attr.mq_curmsgs, q2)
  | .error _ => none

/-- MessageQueue::max_size: reads the cached attr_.mq_maxmsg (fixed after
mq_open). -/
def MessageQueue.max_size (q : MessageQueue) : Nat := q.attr.mq_maxmsg

/-- MessageQueue::max_msgsize: reads the cached attr_.mq_msgsize (fixed
after mq_open). -/
def MessageQueue.max_msgsize (q : MessageQueue) : Nat := q.attr.mq_msgsize

def SIZE_T_MOD : Nat := 2 ^ 64

/-- size_t subtraction: wraps modulo 2^64. -/
def subSizeT (a b : Nat) : Nat := (a + (SIZE_T_MOD - b % SIZE_T_MOD)) % SIZE_T_MOD

/-- MessageQueue::capacity: max_size() - size() on size_t.  size()
refreshes the attr_ cache from the kernel snapshot, and max_size() reads
the cache (mq_maxmsg is fixed after mq_open, so the C++ evaluation order
of the two calls does not matter). -/
def MessageQueue.capacity (q : MessageQueue) (kernelAttr : Option MqAttr)
    (errnoCell : Nat) : Option (Nat × MessageQueue) :=
  match q.size kernelAttr errnoCell with
  | some (sz, q2) => some (subSizeT q2.max_size sz, q2)
  | none => none

/-- MessageQueue::is_empty: returns !size() as a size_t (1 when the count
is zero, 0 otherwise). -/
def MessageQueue.is_empty (q : MessageQueue) (kernelAttr : Option MqAttr)
    (errnoCell : Nat) : Option (Nat × MessageQueue) :=
  match q.size kernelAttr errnoCell with
  | some (sz, q2) => some (if sz = 0 then 1 else 0, q2)
  | none => none

/-- MessageQueue::receive: allocates std::string(max_msgsize(), 0),
mq_receive fills it and returns the delivered byte count and priority
(oracle kernelRecv; none = failure with errnoCell set), then
msg.resize(ret) keeps exactly the delivered bytes. -/
def MessageQueue.receive (q : MessageQueue)
    (kernelRecv : Option (List UInt8 × Nat)) (errnoCell : Nat) :
    Except (Option MqError) Message :=
  let msg : List UInt8 := List.replicate q.max_msgsize 0
  match kernelRecv with
  | some (delivered, prio) =>
    let written := delivered ++ msg.drop delivered.length
    let ret := delivered.length
    let shrunk := written.take ret
    .ok { contents := shrunk, priority := prio }
  | none => .error (parse_err .Receive errnoCell).1

/-- The loop body of MessageQueue::clear over the remaining iteration
count and the running receive-call counter.  On a failed receive the
source constructs std::unexpected{e.error()} as a discarded expression
statement (there is no return in front of it), so the loop continues;
the embedding keeps that discarded value as a dead let-binding.  Returns
(the value clear returns, total number of receive calls made). -/
def clear_loop (recv : Nat → Except MqError Message) :
    Nat → Nat → Except MqError Unit × Nat
  | 0, calls => (.ok (), calls)
  | Nat.succ n, calls =>
    match recv calls with
    | .ok _ => clear_loop recv n (calls + 1)
    | .error e =>
      let _discarded : Except MqError Unit := .error e
      clear_loop recv n (calls + 1)

/-- MessageQueue::clear: for (auto i = 0uz, sz = size(); i < sz; ++i) —
sz is the size() snapshot taken once at entry; recv gives the result of
the i-th receive() call. -/
def MessageQueue.clear (sizeSnapshot : Nat)
    (recv : Nat → Except MqError Message) : Except MqError Unit × Nat :=
  clear_loop recv sizeSnapshot 0

/-- The two shapes detail::ByteSequence admits: a contiguous STL container
of single-byte elements (detail::StlSequence, carrying data() and size()),
or a null-terminated char pointer/array (the raw bytes in memory starting
at the pointer, including the terminator somewhere). -/
inductive Payload
  | stlSeq (data : List UInt8)
  | charPtr (mem : List UInt8)
  deriving DecidableEq, Repr

/-- std::strlen: number of bytes before the first zero byte. -/
def strlenBytes : List UInt8 → Nat
  | [] => 0
  | b :: rest => if b = 0 then 0 else strlenBytes rest + 1

/-- MessageQueue::get_ptr_and_size: StlSequence yields
{sequence.data(), sequence.size()}; otherwise (char pointer) yields
{sequence, std::strlen(sequence)}. -/
def get_ptr_and_size : Payload → List UInt8 × Nat
  | .stlSeq data => (data, data.length)
  | .charPtr mem => (mem, strlenBytes mem)

/-- The bytes mq_send actually transmits: the first size bytes at ptr. -/
def transmitted (p : Payload) : List UInt8 :=
  ((get_ptr_and_size p).1).take (get_ptr_and_size p).2

/-- MessageQueue::Builder: four set-once std::optional fields. -/
structure Builder where
  name : Option (List Char) := none
  mode : Option MqMode := none
  type : Option MqType := none
  reset : Option Bool := none
  deriving DecidableEq, Repr

/-- Builder::build: asserts name_, mode_, type_ are all set (none models
the assert tripping); when reset_ holds true, first MessageQueue::unlink
(oracle unlinkRes) and on its failure returns that error without reaching
the open; then constructs the queue inside try/catch, turning a thrown
std::invalid_argument (ctorRes = error) into an unexpected result. -/
def Builder.build (b : Builder)
    (unlinkRes : List Char → Except MqError Unit)
    (ctorRes : List Char → MqMode → MqType → Except MqError MessageQueue) :
    Option (Except MqError MessageQueue) :=
  match b.name, b.mode, b.type with
  | some n, some m, some t =>
    some (
      if b.reset = some true then
        match unlinkRes n with
        | .error e => .error e
        | .ok _ =>
          match ctorRes n m t with
          | .ok q => .ok q
          | .error e => .error e
      else
        match ctorRes n m t with
        | .ok q => .ok q
        | .error e => .error e)
  | _, _, _ => none

/-! ## Helper lemmas -/

/-- clear's loop always runs its snapshot count to completion and returns
success, whatever the individual receive calls do. -/
theorem clear_loop_run (recv : Nat → Except MqError Message) :
    ∀ (n calls : Nat), clear_loop recv n calls = (Except.ok (), calls + n) := by
  intro n
  induction n with
  | zero => intro calls; rfl
  | succ k ih =>
    intro calls
    have harith : calls + 1 + k = calls + (k + 1) := by omega
    cases h : recv calls with
    | ok m =>
      simp only [clear_loop, h]
      rw [ih, harith]
    | error e =>
      simp only [clear_loop, h]
      rw [ih, harith]

/-! ## Claim theorems -/

/-- Claim C2: move construction hands the source's descriptor, name, type
and cached attributes to the destination; the moved-from source is exactly
the default-initialized state with the -1 descriptor sentinel, so its
destructor performs no mq_close call, and no kernel descriptor is held by
two live handles afterwards. -/
theorem moveConstruct_transfers (rhs : MessageQueue) :
    (MessageQueue.moveConstruct rhs).1 = rhs ∧
    (MessageQueue.moveConstruct rhs).2 = ({} : MessageQueue) ∧
    (MessageQueue.moveConstruct rhs).2.mqdes = -1 ∧
    MessageQueue.destructorCloses (MessageQueue.moveConstruct rhs).2 = false :=
  ⟨rfl, rfl, rfl, rfl⟩

/-- Claim C10: move-assignment is a member-wise swap, so the moved-from
source holds the destination's previous descriptor afterwards, and its
destructor closes that descriptor exactly when the destination's old one
was valid — the source is not reset to the -1 sentinel. -/
theorem moveAssign_swaps (lhs rhs : MessageQueue) :
    MessageQueue.moveAssign lhs rhs = (rhs, lhs) ∧
    (MessageQueue.moveAssign lhs rhs).2.mqdes = lhs.mqdes ∧
    MessageQueue.destructorCloses (MessageQueue.moveAssign lhs rhs).2 =
      MessageQueue.destructorCloses lhs :=
  ⟨rfl, rfl, rfl⟩

/-- Claim C6: Priority construction succeeds and round-trips for every
p ≤ 32767, throws std::invalid_argument for every p > 32767, and default
construction yields the value 3. -/
theorem priority_ctor_spec :
    (∀ p : Nat, p ≤ 32767 → Priority.ctor p = some ⟨p⟩ ∧
      (Priority.ctor p).map Priority.toUInt = some p) ∧
    (∀ p : Nat, 32767 < p → Priority.ctor p = none) ∧
    Priority.defaultCtor.priority = 3 := by
  refine ⟨?_, ?_, rfl⟩
  · intro p hp
    have h : ¬ p > 32768 - 1 := by omega
    simp [Priority.ctor, priority_sanity_check, h, Priority.toUInt]
  · intro p hp
    have h : p > 32768 - 1 := by omega
    simp [Priority.ctor, priority_sanity_check, h]

/-- Claim C6 witness: Priority(32767) succeeds and round-trips,
Priority(32768) throws, Priority() holds 3. -/
theorem priority_ctor_spec_witness :
    Priority.ctor 32767 = some ⟨32767⟩ ∧ Priority.ctor 32768 = none ∧
    Priority.defaultCtor.priority = 3 :=
  ⟨(priority_ctor_spec.1 32767 (by decide)).1,
   priority_ctor_spec.2.1 32768 (by decide),
   priority_ctor_spec.2.2⟩

/-- Claim C3: parse_err captures the current errno value, resets the
errno cell to zero, and produces the message combining the operation's
underlying number, the captured code and the fixed table explanation; an
(operation, code) pair absent from the table escapes as a thrown
std::out_of_range (none), never a silent unknown-string fallback.  The
closed conjuncts pin a mapped pair (the string tests.cpp expects for a
receive on an empty queue) and an unmapped pair. -/
theorem parse_err_spec :
    (∀ op e, parse_err op e = ((err_map op e).map (mkErrMsg op e), 0)) ∧
    parse_err Operation.Receive 11 =
      (some "Error: operation 3 with errno 11: queue is empty", 0) ∧
    parse_err Operation.Open 99 = (none, 0) := by
  refine ⟨?_, by rfl, by rfl⟩
  intro op e
  unfold parse_err
  cases h : err_map op e <;> simp [h]

/-- Claim C1 (code bug): the receive count of clear() is exactly the
size() snapshot taken once at entry, but a failed receive does not abort
the drain — the source builds std::unexpected{e.error()} as a discarded
expression statement instead of returning it — so clear() returns success
even when every receive fails.  The closed conjunct evaluates the drain
at the failing input: snapshot 1, the single receive failing with the
empty-queue error. -/
theorem clear_swallows_receive_failure :
    (∀ (recv : Nat → Except MqError Message) (sz : Nat),
      MessageQueue.clear sz recv = (Except.ok (), sz)) ∧
    MessageQueue.clear 1
      (fun _ =>
        Except.error "Error: operation 3 with errno 11: queue is empty") =
      (Except.ok (), 1) := by
  constructor
  · intro recv sz
    simp [MessageQueue.clear, clear_loop_run]
  · simp [MessageQueue.clear, clear_loop_run]

/-- Claim C8: a successful receive() yields a Message holding exactly the
kernel-delivered bytes — the buffer allocated at max_msgsize() is shrunk
to the delivered length, so contents.length equals the delivered count —
paired with the kernel-delivered priority. -/
theorem receive_spec (q : MessageQueue) (delivered : List UInt8)
    (prio : Nat) (e : Nat) (h : delivered.length ≤ q.max_msgsize) :
    q.receive (some (delivered, prio)) e =
      Except.ok { contents := delivered, priority := prio } := by
  have htake :
      (delivered ++
        (List.replicate q.max_msgsize (0 : UInt8)).drop delivered.length).take
        delivered.length = delivered :=
    List.take_left ..
  simp [MessageQueue.receive, htake]

/-- Claim C8 witness: an 8-byte-buffer handle receiving the 4 delivered
bytes [1, 2, 0, 3] at priority 5. -/
theorem receive_spec_witness :
    (({ attr := { mq_msgsize := 8 } } : MessageQueue)).receive
      (some ([1, 2, 0, 3], 5)) 0 =
      Except.ok { contents := [1, 2, 0, 3], priority := 5 } :=
  receive_spec { attr := { mq_msgsize := 8 } } [1, 2, 0, 3] 5 0 (by decide)

/-- find_last_of finds nothing exactly when the character is absent. -/
theorem find_last_of_eq_none (l : List Char) (c : Char) :
    find_last_of l c = none ↔ c ∉ l := by
  induction l with
  | nil => simp [find_last_of]
  | cons a rest ih =>
    rw [find_last_of]
    cases hr : find_last_of rest c with
    | some i =>
      have hmem : c ∈ rest := by
        by_contra hnot
        exact Option.noConfusion ((ih.mpr hnot).symm.trans hr)
      simp only [List.mem_cons]
      constructor
      · intro hcontra
        exact Option.noConfusion hcontra
      · intro hnotin
        exact absurd (Or.inr hmem) hnotin
    | none =>
      have hcr : c ∉ rest := ih.mp hr
      by_cases hac : a = c
      · simp [hac]
      · simp only [hac, if_false, List.mem_cons, true_iff]
        intro hor
        rcases hor with hca | hin
        · exact hac hca.symm
        · exact hcr hin

/-- On a name that starts with the separator, find_first_of equals
find_last_of exactly when the separator occurs exactly once. -/
theorem slash_first_eq_last (t : List Char) :
    find_first_of ('/' :: t) '/' = find_last_of ('/' :: t) '/' ↔
      ('/' :: t).count '/' = 1 := by
  have hfirst : find_first_of ('/' :: t) '/' = some 0 := by
    simp [find_first_of]
  rw [hfirst, find_last_of]
  cases hr : find_last_of t '/' with
  | some i =>
    have hmem : '/' ∈ t := by
      by_contra hnot
      exact Option.noConfusion (((find_last_of_eq_none t '/').mpr hnot).symm.trans hr)
    have hcount : 0 < t.count '/' := List.count_pos_iff.mpr hmem
    simp only [List.count_cons_self]
    constructor
    · intro hcontra
      have h0 : (0 : Nat) = i + 1 := by injection hcontra
      omega
    · intro h1
      omega
  | none =>
    have hnot : '/' ∉ t := (find_last_of_eq_none t '/').mp hr
    have hzero : t.count '/' = 0 := List.count_eq_zero.mpr hnot
    simp [List.count_cons_self, hzero]

/-- Claim C7: name validation passes exactly when the name starts with one
separator, contains no other separator, has length at least 2 including
the leading separator, and fits (with its terminator) below the platform
name-length limit; on any other name the constructor throws invalid mq
name before the mq_open kernel call is attempted — the outcome is the
same for every possible kernel oracle. -/
theorem name_sanity_check_spec :
    (∀ (name : List Char) (nameMax : Nat),
      (name_sanity_check name nameMax).isSome = true ↔ validName name nameMax) ∧
    (∀ (name : List Char) (nameMax : Nat) (mode : MqMode) (type : MqType)
      (mq_open : List Char → MqMode → MqType → Int) (attrOf : Int → MqAttr)
      (e : Nat), ¬ validName name nameMax →
      MessageQueue.construct name mode type nameMax mq_open attrOf e =
        Except.error CtorError.invalidName) := by
  have key : ∀ (name : List Char) (nameMax : Nat),
      (name_sanity_check name nameMax).isSome = true ↔ validName name nameMax := by
    intro name nameMax
    unfold name_sanity_check
    by_cases hcond : name.head? ≠ some '/' ∨
        find_first_of name '/' ≠ find_last_of name '/' ∨
        name.length = 1 ∨ name.length + 1 ≥ nameMax
    · rw [if_pos hcond]
      simp only [Option.isSome_none, Bool.false_eq_true, false_iff]
      intro hv
      obtain ⟨h1, h2, h3, h4⟩ := hv
      obtain ⟨t, ht⟩ : ∃ t, name = '/' :: t := by
        cases name with
        | nil => exact absurd h1 (by simp)
        | cons a rest =>
          refine ⟨rest, ?_⟩
          have : a = '/' := by simpa using h1
          rw [this]
      rcases hcond with hc | hc | hc | hc
      · exact hc h1
      · rw [ht] at hc h2
        exact hc ((slash_first_eq_last t).mpr h2)
      · omega
      · omega
    · rw [if_neg hcond]
      push_neg at hcond
      obtain ⟨h1, h2, h3, h4⟩ := hcond
      simp only [Option.isSome_some, true_iff]
      obtain ⟨t, ht⟩ : ∃ t, name = '/' :: t := by
        cases name with
        | nil => exact absurd h1 (by simp)
        | cons a rest =>
          refine ⟨rest, ?_⟩
          have : a = '/' := by simpa using h1
          rw [this]
      refine ⟨h1, ?_, ?_, by omega⟩
      · rw [ht] at h2 ⊢
        exact (slash_first_eq_last t).mp h2
      · rw [ht] at h3 ⊢
        simp only [List.length_cons] at h3 ⊢
        omega
  refine ⟨key, ?_⟩
  intro name nameMax mode type mq_open attrOf e hnv
  have h0 : name_sanity_check name nameMax = none := by
    cases h : name_sanity_check name nameMax with
    | none => rfl
    | some v => exact absurd ((key name nameMax).mp (by simp [h])) hnv
  simp [MessageQueue.construct, h0]

/-- Claim C7 witness: the name "a" (no leading separator, length 1) is
rejected by validation and the constructor fails with invalidName for a
kernel open that would otherwise succeed; the name "/my_queue" passes
validation under the usual 255-character limit. -/
theorem name_sanity_check_spec_witness :
    MessageQueue.construct ['a'] MqMode.NON_BLOCKING MqType.BIDIRECTIONAL 255
      (fun _ _ _ => 3) (fun _ => {}) 0 = Except.error CtorError.invalidName ∧
    (name_sanity_check ['/', 'm', 'y', '_', 'q'] 255).isSome = true :=
  ⟨name_sanity_check_spec.2 ['a'] 255 MqMode.NON_BLOCKING MqType.BIDIRECTIONAL
      (fun _ _ _ => 3) (fun _ => {}) 0 (by decide),
   (name_sanity_check_spec.1 ['/', 'm', 'y', '_', 'q'] 255).mpr (by decide)⟩

/-- Claim C4: when reset(true) was requested, build() first attempts
unlink and, on unlink failure, returns that failure without attempting
the open — the result is the unlink error for every possible constructor
outcome; when the open is attempted and the constructor throws, build()
catches the std::invalid_argument and returns its message as a
recoverable error result instead of propagating the exception. -/
theorem build_spec :
    (∀ (b : Builder) (n : List Char) (m : MqMode) (t : MqType)
      (unlinkRes : List Char → Except MqError Unit) (e : MqError),
      b.name = some n → b.mode = some m → b.type = some t →
      b.reset = some true → unlinkRes n = Except.error e →
      ∀ ctorRes, b.build unlinkRes ctorRes = some (Except.error e)) ∧
    (∀ (b : Builder) (n : List Char) (m : MqMode) (t : MqType)
      (unlinkRes : List Char → Except MqError Unit)
      (ctorRes : List Char → MqMode → MqType → Except MqError MessageQueue)
      (e : MqError),
      b.name = some n → b.mode = some m → b.type = some t →
      (b.reset = some true → unlinkRes n = Except.ok ()) →
      ctorRes n m t = Except.error e →
      b.build unlinkRes ctorRes = some (Except.error e)) := by
  constructor
  · intro b n m t unlinkRes e hn hm ht hr hu ctorRes
    simp [Builder.build, hn, hm, ht, hr, hu]
  · intro b n m t unlinkRes ctorRes e hn hm ht hr hc
    by_cases hres : b.reset = some true
    · simp [Builder.build, hn, hm, ht, hres, hr hres, hc]
    · simp [Builder.build, hn, hm, ht, hres, hc]

/-- Claim C4 witness: a fully set builder with reset(true) whose unlink
fails returns the unlink error even though the open would succeed, and a
fully set builder with reset(false) whose constructor throws returns the
thrown message as an error result. -/
theorem build_spec_witness :
    Builder.build
      { name := some ['/', 'a'], mode := some MqMode.BLOCKING,
        type := some MqType.RECEIVER, reset := some true }
      (fun _ => Except.error "Error: operation 5 with errno 2: no message queue found under this name")
      (fun _ _ _ => Except.ok {}) =
      some (Except.error "Error: operation 5 with errno 2: no message queue found under this name") ∧
    Builder.build
      { name := some ['/', 'a'], mode := some MqMode.BLOCKING,
        type := some MqType.RECEIVER, reset := some false }
      (fun _ => Except.ok ())
      (fun _ _ _ => Except.error "invalid mq name") =
      some (Except.error "invalid mq name") :=
  ⟨build_spec.1
      { name := some ['/', 'a'], mode := some MqMode.BLOCKING,
        type := some MqType.RECEIVER, reset := some true }
      ['/', 'a'] MqMode.BLOCKING MqType.RECEIVER
      (fun _ => Except.error "Error: operation 5 with errno 2: no message queue found under this name")
      "Error: operation 5 with errno 2: no message queue found under this name"
      rfl rfl rfl rfl rfl (fun _ _ _ => Except.ok {}),
   build_spec.2
      { name := some ['/', 'a'], mode := some MqMode.BLOCKING,
        type := some MqType.RECEIVER, reset := some false }
      ['/', 'a'] MqMode.BLOCKING MqType.RECEIVER
      (fun _ => Except.ok ()) (fun _ _ _ => Except.error "invalid mq name")
      "invalid mq name" rfl rfl rfl
      (fun hcontra => absurd hcontra (by simp)) rfl⟩

/-- The bytes strictly before the first zero byte contain no zero byte. -/
theorem strlenBytes_take (l : List UInt8) :
    (0 : UInt8) ∉ l.take (strlenBytes l) := by
  induction l with
  | nil => simp [strlenBytes]
  | cons b rest ih =>
    by_cases hb : b = 0
    · simp [strlenBytes, hb]
    · rw [strlenBytes, if_neg hb, List.take_succ_cons]
      simp only [List.mem_cons]
      intro hor
      rcases hor with h0 | hin
      · exact hb h0.symm
      · exact ih hin

/-- When a zero byte is present, strlen stops strictly inside the
memory. -/
theorem strlenBytes_lt_length (l : List UInt8) (h : (0 : UInt8) ∈ l) :
    strlenBytes l < l.length := by
  induction l with
  | nil => simp at h
  | cons b rest ih =>
    by_cases hb : b = 0
    · simp [strlenBytes, hb]
    · have hr : (0 : UInt8) ∈ rest := by
        rcases List.mem_cons.mp h with h0 | h0
        · exact absurd h0.symm hb
        · exact h0
      have := ih hr
      rw [strlenBytes, if_neg hb]
      simp only [List.length_cons]
      omega

/-- The byte at index strlen is the first zero byte (the terminator). -/
theorem strlenBytes_terminator (l : List UInt8) (h : (0 : UInt8) ∈ l) :
    l[strlenBytes l]? = some 0 := by
  induction l with
  | nil => simp at h
  | cons b rest ih =>
    by_cases hb : b = 0
    · simp [strlenBytes, hb]
    · have hr : (0 : UInt8) ∈ rest := by
        rcases List.mem_cons.mp h with h0 | h0
        · exact absurd h0.symm hb
        · exact h0
      rw [strlenBytes, if_neg hb]
      simpa using ih hr

/-- Claim C5: a contiguous single-byte STL container extracts to exactly
(its data pointer, its declared size) — embedded zero bytes stay inside
the transmitted length — while a null-terminated char pointer extracts to
(the pointer, the strlen-scanned length): the transmitted bytes are the
zero-free bytes strictly before the first zero byte, and the terminator,
sitting at index strlen, is not part of the transmitted payload. -/
theorem get_ptr_and_size_spec :
    (∀ data : List UInt8,
      get_ptr_and_size (Payload.stlSeq data) = (data, data.length) ∧
      transmitted (Payload.stlSeq data) = data) ∧
    (∀ mem : List UInt8, (0 : UInt8) ∈ mem →
      get_ptr_and_size (Payload.charPtr mem) = (mem, strlenBytes mem) ∧
      transmitted (Payload.charPtr mem) = mem.take (strlenBytes mem) ∧
      (0 : UInt8) ∉ transmitted (Payload.charPtr mem) ∧
      strlenBytes mem < mem.length ∧
      mem[strlenBytes mem]? = some 0) := by
  constructor
  · intro data
    exact ⟨rfl, by simp [transmitted, get_ptr_and_size]⟩
  · intro mem h
    refine ⟨rfl, rfl, ?_, strlenBytes_lt_length mem h, strlenBytes_terminator mem h⟩
    simpa [transmitted, get_ptr_and_size] using strlenBytes_take mem

/-- Claim C5 witness: the memory [104, 105, 0, 120] behind a char pointer
extracts to length 2, the transmitted bytes [104, 105] are zero-free, and
the terminator at index 2 is excluded. -/
theorem get_ptr_and_size_spec_witness :
    get_ptr_and_size (Payload.charPtr [104, 105, 0, 120]) =
      ([104, 105, 0, 120], 2) ∧
    transmitted (Payload.charPtr [104, 105, 0, 120]) = [104, 105] ∧
    (0 : UInt8) ∉ transmitted (Payload.charPtr [104, 105, 0, 120]) := by
  have h := get_ptr_and_size_spec.2 [104, 105, 0, 120] (by decide)
  exact ⟨h.1, by simpa using h.2.1, h.2.2.1⟩

/-- size_t subtraction agrees with truncated subtraction when the
subtrahend is no larger and no wraparound occurs. -/
theorem subSizeT_eq (a b : Nat) (hba : b ≤ a) (ha : a < SIZE_T_MOD) :
    subSizeT a b = a - b := by
  have hpos : 0 < SIZE_T_MOD := by norm_num [SIZE_T_MOD]
  unfold subSizeT
  have hb : b % SIZE_T_MOD = b := Nat.mod_eq_of_lt (by omega)
  rw [hb]
  have h2 : a + (SIZE_T_MOD - b) = (a - b) + SIZE_T_MOD := by omega
  rw [h2, Nat.add_mod_right]
  exact Nat.mod_eq_of_lt (by omega)

/-- Claim C9: against the same kernel attribute snapshot the individual
accessors read, size() returns mq_curmsgs (refreshing the attr_ cache),
capacity() returns exactly max_size() minus size() on that refreshed
handle, and is_empty() returns 1 (true) exactly when size() is zero. -/
theorem capacity_is_empty_spec (q : MessageQueue) (a : MqAttr) (e : Nat)
    (hle : a.mq_curmsgs ≤ a.mq_maxmsg) (hlt : a.mq_maxmsg < SIZE_T_MOD) :
    q.size (some a) e = some (a.mq_curmsgs, { q with attr := a }) ∧
    MessageQueue.max_size { q with attr := a } = a.mq_maxmsg ∧
    q.capacity (some a) e =
      some (MessageQueue.max_size { q with attr := a } - a.mq_curmsgs,
        { q with attr := a }) ∧
    (q.is_empty (some a) e = some (1, { q with attr := a }) ↔
      a.mq_curmsgs = 0) := by
  have hsize : q.size (some a) e = some (a.mq_curmsgs, { q with attr := a }) := by
    simp [MessageQueue.size, MessageQueue.get_attr]
  refine ⟨hsize, rfl, ?_, ?_⟩
  · simp [MessageQueue.capacity, hsize, MessageQueue.max_size,
      subSizeT_eq _ _ hle hlt]
  · rw [MessageQueue.is_empty, hsize]
    by_cases hz : a.mq_curmsgs = 0
    · simp [hz]
    · simp [hz]

/-- Claim C9 witness: a snapshot with 10 slots and 4 pending messages
gives size 4, capacity 6 = 10 - 4, and is_empty false; a snapshot with 0
pending messages gives is_empty true. -/
theorem capacity_is_empty_spec_witness :
    (({} : MessageQueue)).capacity
      (some { mq_maxmsg := 10, mq_msgsize := 8, mq_curmsgs := 4 }) 0 =
      some (6, { attr := { mq_maxmsg := 10, mq_msgsize := 8, mq_curmsgs := 4 } }) ∧
    (({} : MessageQueue)).is_empty
      (some { mq_maxmsg := 10, mq_msgsize := 8, mq_curmsgs := 0 }) 0 =
      some (1, { attr := { mq_maxmsg := 10, mq_msgsize := 8, mq_curmsgs := 0 } }) := by
  have h1 := capacity_is_empty_spec {} { mq_maxmsg := 10, mq_msgsize := 8, mq_curmsgs := 4 } 0
      (by decide) (by decide)
  have h2 := capacity_is_empty_spec {} { mq_maxmsg := 10, mq_msgsize := 8, mq_curmsgs := 0 } 0
      (by decide) (by decide)
  exact ⟨h1.2.2.1, h2.2.2.2.mpr rfl⟩
